import Mathlib

/-!
Shallow embedding of `QrCodeRecognitionAndNamingTool.py`.

The program is a sequential pipeline over three black-box capabilities
(PDF page rendering, image preprocessing / QR localisation, QR decoding)
followed by a filesystem rename loop.  The black boxes are modelled by a
per-file environment (`FileEnv`) recording what each external call returns
for that file: a raised exception, a miss, or a value.  Raster images are
modelled as an abstract inductive type that records exactly the operations
the source applies to them (render, preprocess, crop), so that "which
raster was handed to the decoder" is observable in proofs.

Filesystem model: a directory is a list of files, each a name together
with an abstract content identifier; the decode behaviour of a file is a
function of its content (`envOf : Nat → FileEnv`), matching the fact that
rendering and decoding depend on the file's bytes, which a rename
preserves.  `os.rename` is modelled with the semantics the source handles
(`FileExistsError` raised when the destination exists, as on Windows, the
platform the frozen executable built by `setup.py` targets; the source
explicitly catches `FileExistsError`).

Python truthiness on the decoded payload (`if qr_content:`) is modelled by
`optTruthy`: both `None` and the empty string are falsy.
-/

namespace QrTool

/-- Raster images, abstractly: a rendered page, the result of
`preprocess_image`, or the result of `Image.crop` with a box. -/
inductive Raster where
  | page (id : Nat)
  | preprocessed (r : Raster)
  | cropped (r : Raster) (xMin yMin xMax yMax : Int)
deriving DecidableEq, Repr

/-- Python `min(seq)` on a nonempty sequence (0 on the empty list, which the
source never passes: `detector.detect` corner arrays have four points). -/
def pyMin : List Int → Int
  | [] => 0
  | x :: xs => xs.foldl min x

/-- Python `max(seq)` on a nonempty sequence (0 on the empty list). -/
def pyMax : List Int → Int
  | [] => 0
  | x :: xs => xs.foldl max x

/-- Source line 26: `x_min = int(min(points[:, 0]))`. -/
def x_min (points : List (Int × Int)) : Int := pyMin (points.map Prod.fst)

/-- Source line 27: `y_min = int(min(points[:, 1]))`. -/
def y_min (points : List (Int × Int)) : Int := pyMin (points.map Prod.snd)

/-- Source line 28: `x_max = int(max(points[:, 0]))`. -/
def x_max (points : List (Int × Int)) : Int := pyMax (points.map Prod.fst)

/-- Source line 29: `y_max = int(max(points[:, 1]))`. -/
def y_max (points : List (Int × Int)) : Int := pyMax (points.map Prod.snd)

/-- Result of the black-box call `cv2.QRCodeDetector().detect` inside
`detect_and_crop_qr_code`, including the possibility that the call (or the
colour conversion before it) raises. -/
inductive DetectResult where
  | found (points : List (Int × Int))
  | notFound
  | raised
deriving DecidableEq, Repr

/-- Source lines 10-36 (`detect_and_crop_qr_code`): if the detector finds a
quadrilateral, crop the image to the min/max bounding box of its corner
points; if it finds nothing, or any step raises, the exception is caught and
the full input image is returned unchanged. -/
def detect_and_crop_qr_code (detect : DetectResult) (image : Raster) : Raster :=
  match detect with
  | .found points =>
      Raster.cropped image (x_min points) (y_min points) (x_max points) (y_max points)
  | .notFound => image
  | .raised => image

/-- Source lines 38-48 (`preprocess_image`): grayscale + Otsu threshold,
modelled abstractly; on internal failure the exception is caught and the
input image is returned unchanged. `ok = false` models a raised exception. -/
def preprocess_image (ok : Bool) (image : Raster) : Raster :=
  if ok then Raster.preprocessed image else image

/-- Result of the black-box call `pyzbar.decode(img, symbols=[QRCODE])`:
either a list of decoded QR payloads (as UTF-8 text) or a raised
exception. -/
inductive PyzbarResult where
  | ok (codes : List String)
  | raised
deriving DecidableEq, Repr

/-- Result of the black-box call `cv2.QRCodeDetector().detectAndDecode`:
either a payload string (empty when nothing decoded) or a raised
exception. -/
inductive OpencvResult where
  | ok (data : String)
  | raised
deriving DecidableEq, Repr

/-- Source lines 89-104 (`extract_qr_code_with_opencv`): return the decoded
data (possibly the empty string); on exception, catch it and return None. -/
def extract_qr_code_with_opencv (opencv : OpencvResult) : Option String :=
  match opencv with
  | .ok data => some data
  | .raised => none

/-- Python truthiness of a string: the empty string is falsy. -/
def strTruthy (s : String) : Bool := !(s == "")

/-- Python truthiness of an optional string: `None` and `""` are falsy. -/
def optTruthy : Option String → Bool
  | none => false
  | some s => strTruthy s

/-- Per-file behaviour of the external collaborators, a function of the
file's bytes.  `render = none` models an exception anywhere in source lines
56-59 (`fitz.open`, `pdf_document[0]`, `get_pixmap`, `Image.frombytes`),
i.e. before the local variable `image` is bound; `render = some id` models
a successful render of the first page to the raster `Raster.page id`.
`preprocessOk = false` models an exception inside `preprocess_image`. -/
structure FileEnv where
  render : Option Nat
  preprocessOk : Bool
  detect : DetectResult
  pyzbar : PyzbarResult
  opencv : OpencvResult
deriving DecidableEq, Repr

/-- Observable outcome of one call to `extract_qr_code_from_pdf`:
the returned value (`none` for Python `None`), whether an exception escaped
the function (`crashed` — the `UnboundLocalError` raised by the `finally`
block when `image` was never bound), whether the document handle was closed
(the `with` block), whether `image.close(); cropped_image.close()` ran to
completion, which decode stages were invoked, and which raster was passed
to the pyzbar decode call. -/
structure ExtractOut where
  result : Option String
  crashed : Bool
  docClosed : Bool
  rastersClosed : Bool
  pyzbarCalled : Bool
  opencvCalled : Bool
  decodeInput : Option Raster
deriving DecidableEq, Repr

/-- Source lines 50-87 (`extract_qr_code_from_pdf`), translated branch by
branch.

If rendering fails (lines 56-59 raise), the `except` block catches the
exception, but the `finally` block then executes `image.close()` with
`image` unbound, raising `UnboundLocalError`, which escapes the function
(`crashed = true`); the `with` context manager has already closed the
document handle by then (vacuously so when `fitz.open` itself failed).

Otherwise `image` and `cropped_image` are both bound (`preprocess_image`
and `detect_and_crop_qr_code` catch their own exceptions and never raise),
so every later path runs the `finally` closes and returns normally:
a nonempty pyzbar result returns its first payload immediately (OpenCV is
not consulted); an empty pyzbar result falls back to OpenCV, and the
OpenCV result is returned only when truthy; a raised pyzbar exception is
caught by the `except` block and the function returns `None`. -/
def extract_qr_code_from_pdf (env : FileEnv) : ExtractOut :=
  match env.render with
  | none =>
      { result := none, crashed := true, docClosed := true, rastersClosed := false,
        pyzbarCalled := false, opencvCalled := false, decodeInput := none }
  | some pid =>
      let image := preprocess_image env.preprocessOk (Raster.page pid)
      let cropped_image := detect_and_crop_qr_code env.detect image
      match env.pyzbar with
      | .raised =>
          { result := none, crashed := false, docClosed := true, rastersClosed := true,
            pyzbarCalled := true, opencvCalled := false, decodeInput := some cropped_image }
      | .ok (c :: _) =>
          { result := some c, crashed := false, docClosed := true, rastersClosed := true,
            pyzbarCalled := true, opencvCalled := false, decodeInput := some cropped_image }
      | .ok [] =>
          let qr_content := extract_qr_code_with_opencv env.opencv
          { result := if optTruthy qr_content then qr_content else none,
            crashed := false, docClosed := true, rastersClosed := true,
            pyzbarCalled := true, opencvCalled := true, decodeInput := some cropped_image }

/-- Python `str.lower()`, character by character (the source only relies on
it for the ASCII suffix ".pdf"). -/
def pyLower (s : String) : String := String.mk (s.data.map Char.toLower)

/-- Python `str.endswith(suffix)`: suffix test on the character list. -/
def pyEndsWith (s suffix : String) : Bool := suffix.data.isSuffixOf s.data

/-- A file in the target directory: its name (the last path segment) and an
abstract content identifier.  `os.path.abspath` equality of two paths joined
to the same folder reduces to equality of the names. -/
structure PFile where
  name : String
  content : Nat
deriving DecidableEq, Repr

/-- Per-file terminal outcome of the rename loop, one per log line the
source prints at the end of a file's processing: lines 124, 120, 126
and 130.  The loop records no outcome distinct from these: an extraction
failure that returns `None` reaches line 130 like a decode miss. -/
inductive Outcome where
  | renamed (oldName newName : String)
  | skippedAlreadyCorrect (name : String)
  | skippedConflict (name : String)
  | notFound (name : String)
deriving DecidableEq, Repr

/-- Content of the file with the given name in the directory, if any
(directory entries have distinct names). -/
def lookupContent (fs : List PFile) (n : String) : Option Nat :=
  (fs.find? (fun f => f.name == n)).map PFile.content

/-- Environment the externals present when the loop opens the path for
`n` in the directory `fs`: the behaviour attached to that file's content,
or, when no such file exists, an open failure (`fitz.open` raises on a
missing path). -/
def envFor (envOf : Nat → FileEnv) (fs : List PFile) (n : String) : FileEnv :=
  match lookupContent fs n with
  | some c => envOf c
  | none =>
      { render := none, preprocessOk := true, detect := .notFound,
        pyzbar := .ok [], opencv := .ok "" }

/-- Effect of a successful `os.rename(old, new)` on the directory: the file
keeps its content and takes the new name. -/
def renameFile (fs : List PFile) (oldName newName : String) : List PFile :=
  fs.map (fun f => if f.name == oldName then { f with name := newName } else f)

/-- Result of the loop body for one directory entry: either the updated
directory together with the entry's outcome, or an uncaught exception that
aborts the whole loop (the `UnboundLocalError` escaping
`extract_qr_code_from_pdf`, which no caller catches). -/
inductive StepResult where
  | step (fs : List PFile) (out : Outcome)
  | crash
deriving DecidableEq, Repr

/-- Source lines 112-130, the loop body for one already-filtered entry:
extract the payload; if truthy, build `new_filename = qr_content + ".pdf"`,
skip when the absolute target path equals the source path (name equality,
line 119), otherwise attempt `os.rename`, which raises `FileExistsError`
when the target exists (caught at line 125, no filesystem change) and
renames in place otherwise; a falsy payload reaches line 130 (not found). -/
def processFile (envOf : Nat → FileEnv) (fs : List PFile) (filename : String) :
    StepResult :=
  let ex := extract_qr_code_from_pdf (envFor envOf fs filename)
  if ex.crashed then .crash
  else if optTruthy ex.result then
    let qr_content := ex.result.getD ""
    let new_filename := qr_content ++ ".pdf"
    if new_filename == filename then .step fs (.skippedAlreadyCorrect filename)
    else if fs.any (fun f => f.name == new_filename) then
      .step fs (.skippedConflict filename)
    else .step (renameFile fs filename new_filename) (.renamed filename new_filename)
  else .step fs (.notFound filename)

/-- Result of a whole run of `rename_pdfs_in_folder`: the final directory,
the outcomes recorded (in processing order), the entries that entered the
loop body (passed the `.pdf` filter), the number of extraction/decode
attempts made, and whether the run aborted with an uncaught exception
(in which case the process exits nonzero). -/
structure RunResult where
  fs : List PFile
  outcomes : List Outcome
  processed : List String
  decodes : Nat
  aborted : Bool
deriving DecidableEq, Repr

/-- Source lines 110-130: iterate over the snapshot of directory entry
names, filter by `filename.lower().endswith(".pdf")`, and run the loop body
on each selected entry; an uncaught exception from the body aborts the
remainder of the loop. -/
def runNames (envOf : Nat → FileEnv) (fs : List PFile) : List String → RunResult
  | [] => { fs := fs, outcomes := [], processed := [], decodes := 0, aborted := false }
  | n :: rest =>
      if pyEndsWith (pyLower n) ".pdf" then
        match processFile envOf fs n with
        | .crash =>
            { fs := fs, outcomes := [], processed := [n], decodes := 1, aborted := true }
        | .step fs1 out =>
            let r := runNames envOf fs1 rest
            { fs := r.fs, outcomes := out :: r.outcomes, processed := n :: r.processed,
              decodes := r.decodes + 1, aborted := r.aborted }
      else runNames envOf fs rest

/-- Source lines 106-130 (`rename_pdfs_in_folder`): `os.listdir` snapshots
the entry names once; the loop then processes the selected names. -/
def rename_pdfs_in_folder (envOf : Nat → FileEnv) (fs : List PFile) : RunResult :=
  runNames envOf fs (fs.map PFile.name)

/-- Exit status of the process (lines 132-140 run `rename_pdfs_in_folder`
under no exception handler): 0 on completion, nonzero when an uncaught
exception aborts the run. -/
def exitCode (r : RunResult) : Nat := if r.aborted then 1 else 0

/-- Example file behaviour: the first page renders and its QR code decodes
(via pyzbar) to the payload `s`. -/
def payloadEnv (s : String) : FileEnv :=
  { render := some 0, preprocessOk := true, detect := .notFound,
    pyzbar := .ok [s], opencv := .ok "" }

/-- Example file behaviour: `fitz.open` (or the page render) raises, so the
local `image` is never bound. -/
def cannotOpenEnv : FileEnv :=
  { render := none, preprocessOk := true, detect := .notFound,
    pyzbar := .ok [], opencv := .ok "" }

/-- Example contents: content 1 decodes to payload "X", any other content
decodes to payload "Y". -/
def conflictChainEnv : Nat → FileEnv :=
  fun c => if c == 1 then payloadEnv "X" else payloadEnv "Y"

/-- Example directory: `A.pdf` holds payload "X" while `X.pdf` (the name
`A.pdf` wants) already exists and itself holds payload "Y". -/
def conflictChainDir : List PFile := [⟨"A.pdf", 1⟩, ⟨"X.pdf", 2⟩]

/-- Example file behaviour: the page renders but region detection raises
and neither decoder finds a payload. -/
def noRegionEnv : FileEnv :=
  { render := some 7, preprocessOk := true, detect := .raised,
    pyzbar := .ok [], opencv := .ok "" }

/-- A file already bears the name its own decoded payload dictates:
extraction yields a truthy payload `s` with `s ++ ".pdf"` equal to the
file's name. -/
def selfNamed (envOf : Nat → FileEnv) (f : PFile) : Prop :=
  ∃ s, (extract_qr_code_from_pdf (envOf f.content)).result = some s ∧
    s ≠ "" ∧ s ++ ".pdf" = f.name

theorem foldl_min_le_init (xs : List Int) (a : Int) : xs.foldl min a ≤ a := by
  induction xs generalizing a with
  | nil => exact le_refl a
  | cons x xs ih => exact le_trans (ih (min a x)) (min_le_left a x)

theorem foldl_min_le_mem (xs : List Int) (a x : Int) (hx : x ∈ xs) :
    xs.foldl min a ≤ x := by
  induction xs generalizing a with
  | nil => cases hx
  | cons y ys ih =>
    rcases List.mem_cons.mp hx with h | h
    · subst h
      exact le_trans (foldl_min_le_init ys (min a x)) (min_le_right a x)
    · exact ih (min a y) h

theorem foldl_min_mem (xs : List Int) (a : Int) :
    xs.foldl min a = a ∨ xs.foldl min a ∈ xs := by
  induction xs generalizing a with
  | nil => exact Or.inl rfl
  | cons y ys ih =>
    rcases ih (min a y) with h | h
    · rcases min_choice a y with h2 | h2
      · exact Or.inl (by rw [List.foldl_cons, h, h2])
      · exact Or.inr (by rw [List.foldl_cons, h, h2]; exact List.mem_cons_self y ys)
    · exact Or.inr (List.mem_cons_of_mem y h)

theorem foldl_max_init_le (xs : List Int) (a : Int) : a ≤ xs.foldl max a := by
  induction xs generalizing a with
  | nil => exact le_refl a
  | cons x xs ih => exact le_trans (le_max_left a x) (ih (max a x))

theorem foldl_max_mem_le (xs : List Int) (a x : Int) (hx : x ∈ xs) :
    x ≤ xs.foldl max a := by
  induction xs generalizing a with
  | nil => cases hx
  | cons y ys ih =>
    rcases List.mem_cons.mp hx with h | h
    · subst h
      exact le_trans (le_max_right a x) (foldl_max_init_le ys (max a x))
    · exact ih (max a y) h

theorem foldl_max_mem (xs : List Int) (a : Int) :
    xs.foldl max a = a ∨ xs.foldl max a ∈ xs := by
  induction xs generalizing a with
  | nil => exact Or.inl rfl
  | cons y ys ih =>
    rcases ih (max a y) with h | h
    · rcases max_choice a y with h2 | h2
      · exact Or.inl (by rw [List.foldl_cons, h, h2])
      · exact Or.inr (by rw [List.foldl_cons, h, h2]; exact List.mem_cons_self y ys)
    · exact Or.inr (List.mem_cons_of_mem y h)

theorem pyMin_le (xs : List Int) (x : Int) (hx : x ∈ xs) : pyMin xs ≤ x := by
  cases xs with
  | nil => cases hx
  | cons y ys =>
    rcases List.mem_cons.mp hx with h | h
    · subst h; exact foldl_min_le_init ys x
    · exact foldl_min_le_mem ys y x h

theorem pyMin_mem (xs : List Int) (h : xs ≠ []) : pyMin xs ∈ xs := by
  cases xs with
  | nil => exact absurd rfl h
  | cons y ys =>
    rcases foldl_min_mem ys y with h2 | h2
    · rw [pyMin, h2]; exact List.mem_cons_self y ys
    · exact List.mem_cons_of_mem y h2

theorem pyMax_le (xs : List Int) (x : Int) (hx : x ∈ xs) : x ≤ pyMax xs := by
  cases xs with
  | nil => cases hx
  | cons y ys =>
    rcases List.mem_cons.mp hx with h | h
    · subst h; exact foldl_max_init_le ys x
    · exact foldl_max_mem_le ys y x h

theorem pyMax_mem (xs : List Int) (h : xs ≠ []) : pyMax xs ∈ xs := by
  cases xs with
  | nil => exact absurd rfl h
  | cons y ys =>
    rcases foldl_max_mem ys y with h2 | h2
    · rw [pyMax, h2]; exact List.mem_cons_self y ys
    · exact List.mem_cons_of_mem y h2

/-- C8: for every set of corner points returned by the quadrilateral
detector, the computed region is the axis-aligned bounding box obtained by
taking the minimum and maximum of the X and Y coordinates independently
(every corner lies inside the box and each of the four bounds is attained
by some corner coordinate, so it is not a rotated box), the cropped raster
is exactly that box, and on the corners (10,10),(50,10),(50,60),(10,60)
the computed box is (10,10)-(50,60). -/
theorem detect_and_crop_computes_axis_aligned_bbox
    (points : List (Int × Int)) (h : points ≠ []) (image : Raster) :
    (∀ p ∈ points, x_min points ≤ p.1 ∧ p.1 ≤ x_max points ∧
        y_min points ≤ p.2 ∧ p.2 ≤ y_max points) ∧
    x_min points ∈ points.map Prod.fst ∧ x_max points ∈ points.map Prod.fst ∧
    y_min points ∈ points.map Prod.snd ∧ y_max points ∈ points.map Prod.snd ∧
    detect_and_crop_qr_code (.found points) image =
      Raster.cropped image (x_min points) (y_min points)
        (x_max points) (y_max points) ∧
    (x_min [((10 : Int), (10 : Int)), (50, 10), (50, 60), (10, 60)],
     y_min [((10 : Int), (10 : Int)), (50, 10), (50, 60), (10, 60)],
     x_max [((10 : Int), (10 : Int)), (50, 10), (50, 60), (10, 60)],
     y_max [((10 : Int), (10 : Int)), (50, 10), (50, 60), (10, 60)]) =
      (10, 10, 50, 60) := by
  have hmap : points.map Prod.fst ≠ [] := by
    intro hc; exact h (List.map_eq_nil_iff.mp hc)
  have hmap2 : points.map Prod.snd ≠ [] := by
    intro hc; exact h (List.map_eq_nil_iff.mp hc)
  refine ⟨?_, pyMin_mem _ hmap, pyMax_mem _ hmap, pyMin_mem _ hmap2,
    pyMax_mem _ hmap2, rfl, by decide⟩
  intro p hp
  exact ⟨pyMin_le _ _ (List.mem_map_of_mem Prod.fst hp),
    pyMax_le _ _ (List.mem_map_of_mem Prod.fst hp),
    pyMin_le _ _ (List.mem_map_of_mem Prod.snd hp),
    pyMax_le _ _ (List.mem_map_of_mem Prod.snd hp)⟩

/-- Witness for the bounding-box theorem at the spec's concrete corners
and a concrete raster. -/
theorem detect_and_crop_computes_axis_aligned_bbox_witness :
    (∀ p ∈ ([((10 : Int), (10 : Int)), (50, 10), (50, 60), (10, 60)] :
        List (Int × Int)),
      x_min [((10 : Int), (10 : Int)), (50, 10), (50, 60), (10, 60)] ≤ p.1 ∧
      p.1 ≤ x_max [((10 : Int), (10 : Int)), (50, 10), (50, 60), (10, 60)] ∧
      y_min [((10 : Int), (10 : Int)), (50, 10), (50, 60), (10, 60)] ≤ p.2 ∧
      p.2 ≤ y_max [((10 : Int), (10 : Int)), (50, 10), (50, 60), (10, 60)]) ∧
    x_min [((10 : Int), (10 : Int)), (50, 10), (50, 60), (10, 60)] ∈
      ([((10 : Int), (10 : Int)), (50, 10), (50, 60), (10, 60)] :
        List (Int × Int)).map Prod.fst ∧
    x_max [((10 : Int), (10 : Int)), (50, 10), (50, 60), (10, 60)] ∈
      ([((10 : Int), (10 : Int)), (50, 10), (50, 60), (10, 60)] :
        List (Int × Int)).map Prod.fst ∧
    y_min [((10 : Int), (10 : Int)), (50, 10), (50, 60), (10, 60)] ∈
      ([((10 : Int), (10 : Int)), (50, 10), (50, 60), (10, 60)] :
        List (Int × Int)).map Prod.snd ∧
    y_max [((10 : Int), (10 : Int)), (50, 10), (50, 60), (10, 60)] ∈
      ([((10 : Int), (10 : Int)), (50, 10), (50, 60), (10, 60)] :
        List (Int × Int)).map Prod.snd ∧
    detect_and_crop_qr_code
        (.found [((10 : Int), (10 : Int)), (50, 10), (50, 60), (10, 60)])
        (Raster.page 0) =
      Raster.cropped (Raster.page 0)
        (x_min [((10 : Int), (10 : Int)), (50, 10), (50, 60), (10, 60)])
        (y_min [((10 : Int), (10 : Int)), (50, 10), (50, 60), (10, 60)])
        (x_max [((10 : Int), (10 : Int)), (50, 10), (50, 60), (10, 60)])
        (y_max [((10 : Int), (10 : Int)), (50, 10), (50, 60), (10, 60)]) ∧
    (x_min [((10 : Int), (10 : Int)), (50, 10), (50, 60), (10, 60)],
     y_min [((10 : Int), (10 : Int)), (50, 10), (50, 60), (10, 60)],
     x_max [((10 : Int), (10 : Int)), (50, 10), (50, 60), (10, 60)],
     y_max [((10 : Int), (10 : Int)), (50, 10), (50, 60), (10, 60)]) =
      (10, 10, 50, 60) :=
  detect_and_crop_computes_axis_aligned_bbox
    [((10 : Int), (10 : Int)), (50, 10), (50, 60), (10, 60)]
    (by decide) (Raster.page 0)

theorem extract_crashed_iff (env : FileEnv) :
    (extract_qr_code_from_pdf env).crashed = true ↔ env.render = none := by
  cases hr : env.render with
  | none => simp [extract_qr_code_from_pdf, hr]
  | some pid =>
    cases hp : env.pyzbar with
    | raised => simp [extract_qr_code_from_pdf, hr, hp]
    | ok codes => cases codes <;> simp [extract_qr_code_from_pdf, hr, hp]

theorem extract_not_crashed_of_result (env : FileEnv) (s : String)
    (h : (extract_qr_code_from_pdf env).result = some s) :
    (extract_qr_code_from_pdf env).crashed = false := by
  cases hc : (extract_qr_code_from_pdf env).crashed with
  | false => rfl
  | true =>
    have hr := (extract_crashed_iff env).mp hc
    simp [extract_qr_code_from_pdf, hr] at h

/-- C4: when the page renders, the primary (pyzbar, QR-symbols-only) decode
is always attempted first; a nonempty primary result returns its first
payload and OpenCV is never invoked; OpenCV is invoked exactly when the
primary returned the empty list; a raised primary is caught and yields no
payload without crashing (OpenCV skipped); and when both stages yield
nothing (primary empty, secondary empty or raised) the result is absent. -/
theorem decoder_chain_primary_before_secondary (env : FileEnv) (pid : Nat)
    (hr : env.render = some pid) :
    (extract_qr_code_from_pdf env).pyzbarCalled = true ∧
    (∀ c cs, env.pyzbar = .ok (c :: cs) →
      (extract_qr_code_from_pdf env).result = some c ∧
      (extract_qr_code_from_pdf env).opencvCalled = false) ∧
    ((extract_qr_code_from_pdf env).opencvCalled = true ↔ env.pyzbar = .ok []) ∧
    (env.pyzbar = .raised →
      (extract_qr_code_from_pdf env).result = none ∧
      (extract_qr_code_from_pdf env).crashed = false ∧
      (extract_qr_code_from_pdf env).opencvCalled = false) ∧
    (env.pyzbar = .ok [] → (env.opencv = .ok "" ∨ env.opencv = .raised) →
      (extract_qr_code_from_pdf env).result = none ∧
      (extract_qr_code_from_pdf env).crashed = false) := by
  refine ⟨?_, ?_, ?_, ?_, ?_⟩
  · cases hp : env.pyzbar with
    | raised => simp [extract_qr_code_from_pdf, hr, hp]
    | ok codes => cases codes <;> simp [extract_qr_code_from_pdf, hr, hp]
  · intro c cs hp
    simp [extract_qr_code_from_pdf, hr, hp]
  · cases hp : env.pyzbar with
    | raised => simp [extract_qr_code_from_pdf, hr, hp]
    | ok codes => cases codes <;> simp [extract_qr_code_from_pdf, hr, hp]
  · intro hp
    simp [extract_qr_code_from_pdf, hr, hp]
  · intro hp hocv
    rcases hocv with h | h <;>
      simp [extract_qr_code_from_pdf, hr, hp, h,
        extract_qr_code_with_opencv, optTruthy, strTruthy]

/-- Witness for the decoder-chain theorem at a concrete environment whose
primary decode yields the payload "INV". -/
theorem decoder_chain_primary_before_secondary_witness :
    (extract_qr_code_from_pdf (payloadEnv "INV")).pyzbarCalled = true ∧
    (∀ c cs, (payloadEnv "INV").pyzbar = .ok (c :: cs) →
      (extract_qr_code_from_pdf (payloadEnv "INV")).result = some c ∧
      (extract_qr_code_from_pdf (payloadEnv "INV")).opencvCalled = false) ∧
    ((extract_qr_code_from_pdf (payloadEnv "INV")).opencvCalled = true ↔
      (payloadEnv "INV").pyzbar = .ok []) ∧
    ((payloadEnv "INV").pyzbar = .raised →
      (extract_qr_code_from_pdf (payloadEnv "INV")).result = none ∧
      (extract_qr_code_from_pdf (payloadEnv "INV")).crashed = false ∧
      (extract_qr_code_from_pdf (payloadEnv "INV")).opencvCalled = false) ∧
    ((payloadEnv "INV").pyzbar = .ok [] →
      ((payloadEnv "INV").opencv = .ok "" ∨ (payloadEnv "INV").opencv = .raised) →
      (extract_qr_code_from_pdf (payloadEnv "INV")).result = none ∧
      (extract_qr_code_from_pdf (payloadEnv "INV")).crashed = false) :=
  decoder_chain_primary_before_secondary (payloadEnv "INV") 0 (by decide)

/-- C7: when no QR quadrilateral is found, and likewise when region
detection raises internally, `detect_and_crop_qr_code` returns the full
input raster rather than raising; inside the extraction pipeline the
decoder then receives exactly the full (uncropped, preprocessed) page
raster; and when the decoder chain still yields nothing, the orchestrator
records the not-found outcome and leaves the directory untouched. -/
theorem detection_miss_uses_full_raster :
    (∀ image : Raster, detect_and_crop_qr_code .notFound image = image ∧
      detect_and_crop_qr_code .raised image = image) ∧
    (∀ (env : FileEnv) (pid : Nat), env.render = some pid →
      (env.detect = .notFound ∨ env.detect = .raised) →
      (extract_qr_code_from_pdf env).decodeInput =
        some (preprocess_image env.preprocessOk (Raster.page pid))) ∧
    (∀ (envOf : Nat → FileEnv) (fs : List PFile) (n : String),
      (extract_qr_code_from_pdf (envFor envOf fs n)).crashed = false →
      optTruthy (extract_qr_code_from_pdf (envFor envOf fs n)).result = false →
      processFile envOf fs n = .step fs (.notFound n)) := by
  refine ⟨fun image => ⟨rfl, rfl⟩, ?_, ?_⟩
  · intro env pid hr hdet
    rcases hdet with h | h <;>
      · cases hp : env.pyzbar with
        | raised => simp [extract_qr_code_from_pdf, hr, hp, detect_and_crop_qr_code, h]
        | ok codes =>
          cases codes <;>
            simp [extract_qr_code_from_pdf, hr, hp, detect_and_crop_qr_code, h]
  · intro envOf fs n hc hfalsy
    simp [processFile, hc, hfalsy]

/-- Witness for the detection-miss theorem: a concrete raster, a concrete
environment with a raised detector, and a concrete directory whose single
file decodes to nothing. -/
theorem detection_miss_uses_full_raster_witness :
    (detect_and_crop_qr_code .notFound (Raster.page 3) = Raster.page 3 ∧
      detect_and_crop_qr_code .raised (Raster.page 3) = Raster.page 3) ∧
    (extract_qr_code_from_pdf noRegionEnv).decodeInput =
      some (preprocess_image true (Raster.page 7)) ∧
    processFile (fun _ => noRegionEnv) [⟨"blank.pdf", 0⟩] "blank.pdf" =
      .step [⟨"blank.pdf", 0⟩] (.notFound "blank.pdf") := by
  refine ⟨detection_miss_uses_full_raster.1 (Raster.page 3), ?_, ?_⟩
  · exact detection_miss_uses_full_raster.2.1 noRegionEnv 7 rfl (Or.inr rfl)
  · exact detection_miss_uses_full_raster.2.2
      (fun _ => noRegionEnv) [⟨"blank.pdf", 0⟩] "blank.pdf" (by decide) (by decide)

/-- C10: a QR code decoding to the empty string is treated like no payload:
extraction returns the empty string, the orchestrator's truthiness test
rejects it, and the file's outcome is not-found with the directory
untouched — in particular the file is never renamed to ".pdf". -/
theorem empty_payload_treated_as_not_found (envOf : Nat → FileEnv)
    (fs : List PFile) (n : String) (pid : Nat)
    (hr : (envFor envOf fs n).render = some pid)
    (hp : (envFor envOf fs n).pyzbar = .ok [""]) :
    (extract_qr_code_from_pdf (envFor envOf fs n)).result = some "" ∧
    optTruthy (extract_qr_code_from_pdf (envFor envOf fs n)).result = false ∧
    processFile envOf fs n = .step fs (.notFound n) := by
  have hres : (extract_qr_code_from_pdf (envFor envOf fs n)).result = some "" := by
    simp [extract_qr_code_from_pdf, hr, hp]
  have hcrash : (extract_qr_code_from_pdf (envFor envOf fs n)).crashed = false :=
    extract_not_crashed_of_result _ "" hres
  have hfalsy : optTruthy (extract_qr_code_from_pdf (envFor envOf fs n)).result
      = false := by
    rw [hres]; rfl
  exact ⟨hres, hfalsy, by simp [processFile, hcrash, hfalsy]⟩

/-- Witness for the empty-payload theorem: a single-file directory whose QR
code decodes to the empty string. -/
theorem empty_payload_treated_as_not_found_witness :
    (extract_qr_code_from_pdf
        (envFor (fun _ => payloadEnv "") [⟨"doc.pdf", 0⟩] "doc.pdf")).result =
      some "" ∧
    optTruthy (extract_qr_code_from_pdf
        (envFor (fun _ => payloadEnv "") [⟨"doc.pdf", 0⟩] "doc.pdf")).result =
      false ∧
    processFile (fun _ => payloadEnv "") [⟨"doc.pdf", 0⟩] "doc.pdf" =
      .step [⟨"doc.pdf", 0⟩] (.notFound "doc.pdf") :=
  empty_payload_treated_as_not_found (fun _ => payloadEnv "")
    [⟨"doc.pdf", 0⟩] "doc.pdf" 0 (by decide) (by decide)

/-- C1: when a file's decoded payload names a target that differs from the
source name but already exists in the directory, processing that file ends
in the skipped-conflict outcome and the directory is returned unchanged:
the existing target is not overwritten and no file's name or content is
altered (`os.rename` raises `FileExistsError`, which line 125 catches). -/
theorem existing_target_skipped_conflict (envOf : Nat → FileEnv)
    (fs : List PFile) (n s : String)
    (hpay : (extract_qr_code_from_pdf (envFor envOf fs n)).result = some s)
    (hs : s ≠ "")
    (hneq : s ++ ".pdf" ≠ n)
    (hex : fs.any (fun f => f.name == s ++ ".pdf") = true) :
    processFile envOf fs n = .step fs (.skippedConflict n) := by
  have hcrash := extract_not_crashed_of_result _ s hpay
  have htruthy : optTruthy (extract_qr_code_from_pdf (envFor envOf fs n)).result
      = true := by
    rw [hpay]; simp [optTruthy, strTruthy, hs]
  simp [processFile, hcrash, htruthy, hpay, hneq, hex, optTruthy, strTruthy, hs]

/-- Witness for the skipped-conflict theorem: `A.pdf` decodes to "X" while
`X.pdf` already exists; `A.pdf` is skipped and both files survive intact. -/
theorem existing_target_skipped_conflict_witness :
    processFile conflictChainEnv conflictChainDir "A.pdf" =
      .step conflictChainDir (.skippedConflict "A.pdf") :=
  existing_target_skipped_conflict conflictChainEnv conflictChainDir
    "A.pdf" "X" (by decide) (by decide) (by decide) (by decide)

/-- C3 (code bug): on a document whose open/render raises before the local
`image` is bound, the `finally` block's release step itself raises
(`image.close()` on an unbound local, an `UnboundLocalError`): the raster
close calls do not run to completion and the exception escapes the
function; only the document handle (managed by `with`) is closed. -/
theorem release_step_raises_when_render_fails :
    (extract_qr_code_from_pdf cannotOpenEnv).crashed = true ∧
    (extract_qr_code_from_pdf cannotOpenEnv).rastersClosed = false ∧
    (extract_qr_code_from_pdf cannotOpenEnv).docClosed = true := by
  decide

/-- C2 (code bug): a directory holding an unopenable `bad.pdf` followed by
a healthy `good.pdf`: the `UnboundLocalError` escaping
`extract_qr_code_from_pdf` is caught nowhere, so the loop aborts at the
first file, the healthy file is never processed, no outcome is recorded,
and the process exits nonzero. -/
theorem open_failure_aborts_whole_batch :
    (rename_pdfs_in_folder
        (fun c => if c == 0 then cannotOpenEnv else payloadEnv "X")
        [⟨"bad.pdf", 0⟩, ⟨"good.pdf", 1⟩]).aborted = true ∧
    (rename_pdfs_in_folder
        (fun c => if c == 0 then cannotOpenEnv else payloadEnv "X")
        [⟨"bad.pdf", 0⟩, ⟨"good.pdf", 1⟩]).outcomes = [] ∧
    (rename_pdfs_in_folder
        (fun c => if c == 0 then cannotOpenEnv else payloadEnv "X")
        [⟨"bad.pdf", 0⟩, ⟨"good.pdf", 1⟩]).processed = ["bad.pdf"] ∧
    (rename_pdfs_in_folder
        (fun c => if c == 0 then cannotOpenEnv else payloadEnv "X")
        [⟨"bad.pdf", 0⟩, ⟨"good.pdf", 1⟩]).fs =
      [⟨"bad.pdf", 0⟩, ⟨"good.pdf", 1⟩] ∧
    exitCode (rename_pdfs_in_folder
        (fun c => if c == 0 then cannotOpenEnv else payloadEnv "X")
        [⟨"bad.pdf", 0⟩, ⟨"good.pdf", 1⟩]) = 1 := by
  decide

/-- C9 (code bug): on a directory whose single `bad.pdf` cannot be opened,
the run aborts with no per-file outcome recorded at all — in particular no
distinct failed outcome — instead of recording failed and continuing. -/
theorem fatal_extraction_records_no_failed_outcome :
    (rename_pdfs_in_folder (fun _ => cannotOpenEnv) [⟨"bad.pdf", 0⟩]).aborted
      = true ∧
    (rename_pdfs_in_folder (fun _ => cannotOpenEnv) [⟨"bad.pdf", 0⟩]).outcomes
      = [] ∧
    (rename_pdfs_in_folder (fun _ => cannotOpenEnv) [⟨"bad.pdf", 0⟩]).decodes
      = 1 := by
  decide

theorem processFile_alreadyCorrect (envOf : Nat → FileEnv) (fs : List PFile)
    (n s : String)
    (hpay : (extract_qr_code_from_pdf (envFor envOf fs n)).result = some s)
    (hs : s ≠ "") (hname : s ++ ".pdf" = n) :
    processFile envOf fs n = .step fs (.skippedAlreadyCorrect n) := by
  have hcrash := extract_not_crashed_of_result _ s hpay
  simp [processFile, hcrash, hpay, optTruthy, strTruthy, hs, hname]

theorem runNames_processed (envOf : Nat → FileEnv) (names : List String) :
    ∀ fs : List PFile,
      (runNames envOf fs names).aborted = false →
      (runNames envOf fs names).processed =
        names.filter (fun n => pyEndsWith (pyLower n) ".pdf") := by
  induction names with
  | nil => intro fs _; rfl
  | cons n rest ih =>
    intro fs hab
    by_cases hf : pyEndsWith (pyLower n) ".pdf" = true
    · cases hstep : processFile envOf fs n with
      | crash =>
        simp only [runNames, hf, if_true, hstep] at hab
        exact absurd hab (by decide)
      | step fs1 out =>
        simp only [runNames, hf, if_true, hstep] at hab ⊢
        simp only [List.filter_cons, hf, if_true]
        exact congrArg (n :: ·) (ih fs1 hab)
    · have hf2 : pyEndsWith (pyLower n) ".pdf" = false := by
        simpa using hf
      simp only [runNames, hf2, Bool.false_eq_true, if_false] at hab ⊢
      simp only [List.filter_cons, hf2, Bool.false_eq_true, if_false]
      exact ih fs hab

theorem runNames_no_pdfs (envOf : Nat → FileEnv) :
    ∀ names : List String,
      (∀ n ∈ names, pyEndsWith (pyLower n) ".pdf" = false) →
      ∀ fs : List PFile,
        runNames envOf fs names =
          { fs := fs, outcomes := [], processed := [], decodes := 0,
            aborted := false } := by
  intro names
  induction names with
  | nil => intro _ fs; rfl
  | cons n rest ih =>
    intro h fs
    have hn := h n (List.mem_cons_self n rest)
    simp only [runNames, hn, Bool.false_eq_true, if_false]
    exact ih (fun m hm => h m (List.mem_cons_of_mem n hm)) fs

/-- C6: the orchestrator processes exactly the top-level directory entries
whose name ends with ".pdf" case-insensitively (the `os.listdir` snapshot
is not recursive, so subdirectory contents are never examined), and on a
directory with no ".pdf"-named entries it performs zero decode attempts,
records zero outcomes (hence zero renames) and leaves the directory
unchanged. -/
theorem pdf_filter_selects_entries (envOf : Nat → FileEnv) (fs : List PFile)
    (h : (rename_pdfs_in_folder envOf fs).aborted = false) :
    (rename_pdfs_in_folder envOf fs).processed =
      (fs.map PFile.name).filter (fun n => pyEndsWith (pyLower n) ".pdf") ∧
    ((∀ n ∈ fs.map PFile.name, pyEndsWith (pyLower n) ".pdf" = false) →
      rename_pdfs_in_folder envOf fs =
        { fs := fs, outcomes := [], processed := [], decodes := 0,
          aborted := false }) := by
  unfold rename_pdfs_in_folder at h ⊢
  exact ⟨runNames_processed envOf (fs.map PFile.name) fs h,
    fun hall => runNames_no_pdfs envOf (fs.map PFile.name) hall fs⟩

/-- Witness for the filter theorem: a directory holding only non-PDF
entries, on which the run does nothing. -/
theorem pdf_filter_selects_entries_witness :
    (rename_pdfs_in_folder (fun _ => payloadEnv "Z")
        [⟨"notes.txt", 0⟩, ⟨"img.png", 1⟩]).processed =
      (([⟨"notes.txt", 0⟩, ⟨"img.png", 1⟩] : List PFile).map PFile.name).filter
        (fun n => pyEndsWith (pyLower n) ".pdf") ∧
    ((∀ n ∈ ([⟨"notes.txt", 0⟩, ⟨"img.png", 1⟩] : List PFile).map PFile.name,
        pyEndsWith (pyLower n) ".pdf" = false) →
      rename_pdfs_in_folder (fun _ => payloadEnv "Z")
          [⟨"notes.txt", 0⟩, ⟨"img.png", 1⟩] =
        { fs := [⟨"notes.txt", 0⟩, ⟨"img.png", 1⟩], outcomes := [],
          processed := [], decodes := 0, aborted := false }) :=
  pdf_filter_selects_entries (fun _ => payloadEnv "Z")
    [⟨"notes.txt", 0⟩, ⟨"img.png", 1⟩] (by decide)

theorem runNames_selfNamed (envOf : Nat → FileEnv) (fs : List PFile)
    (hself : ∀ f ∈ fs, pyEndsWith (pyLower f.name) ".pdf" = true →
      selfNamed envOf f) :
    ∀ names : List String, (∀ n ∈ names, n ∈ fs.map PFile.name) →
      runNames envOf fs names =
        { fs := fs,
          outcomes := (names.filter (fun n => pyEndsWith (pyLower n) ".pdf")).map
            Outcome.skippedAlreadyCorrect,
          processed := names.filter (fun n => pyEndsWith (pyLower n) ".pdf"),
          decodes := (names.filter (fun n => pyEndsWith (pyLower n) ".pdf")).length,
          aborted := false } := by
  intro names
  induction names with
  | nil => intro _; rfl
  | cons n rest ih =>
    intro hmem
    have hrest : ∀ m ∈ rest, m ∈ fs.map PFile.name :=
      fun m hm => hmem m (List.mem_cons_of_mem n hm)
    by_cases hf : pyEndsWith (pyLower n) ".pdf" = true
    · have hn : n ∈ fs.map PFile.name := hmem n (List.mem_cons_self n rest)
      have hfind : (fs.find? (fun g => g.name == n)).isSome := by
        rw [List.find?_isSome]
        obtain ⟨f, hfmem, hfname⟩ := List.mem_map.mp hn
        exact ⟨f, hfmem, by simp [hfname]⟩
      obtain ⟨f2, hf2⟩ := Option.isSome_iff_exists.mp hfind
      have hf2mem : f2 ∈ fs := List.mem_of_find?_eq_some hf2
      have hf2name : f2.name = n := by
        have := List.find?_some hf2
        simpa using this
      obtain ⟨s, hres, hs, hsn⟩ :=
        hself f2 hf2mem (by rw [hf2name]; exact hf)
      have henv : envFor envOf fs n = envOf f2.content := by
        simp [envFor, lookupContent, hf2]
      have hstep : processFile envOf fs n =
          .step fs (.skippedAlreadyCorrect n) := by
        refine processFile_alreadyCorrect envOf fs n s ?_ hs ?_
        · rw [henv]; exact hres
        · rw [hsn, hf2name]
      simp only [runNames, hf, if_true, hstep]
      rw [ih hrest]
      simp [List.filter_cons, hf]
    · have hf2 : pyEndsWith (pyLower n) ".pdf" = false := by
        simpa using hf
      simp only [runNames, hf2, Bool.false_eq_true, if_false]
      rw [ih hrest]
      simp [List.filter_cons, hf2]

/-- C5 (corrected) counterexample: in the directory where `A.pdf` decodes
to payload "X" and a pre-existing `X.pdf` decodes to payload "Y", the
first run conflict-skips `A.pdf` and renames `X.pdf` to `Y.pdf`; running
the tool a second time on the resulting directory then renames `A.pdf` to
`X.pdf` — so the second run does perform a rename, refuting the claim's
universal first half as stated. -/
theorem second_run_can_rename :
    (rename_pdfs_in_folder conflictChainEnv conflictChainDir).outcomes =
      [.skippedConflict "A.pdf", .renamed "X.pdf" "Y.pdf"] ∧
    (rename_pdfs_in_folder conflictChainEnv
        (rename_pdfs_in_folder conflictChainEnv conflictChainDir).fs).outcomes =
      [.renamed "A.pdf" "X.pdf", .skippedAlreadyCorrect "Y.pdf"] := by
  decide

/-- C5 (amended): re-processing a file whose target path equals its source
path yields the skipped-already-correct outcome with no filesystem
operation; consequently a run over a directory in which every ".pdf"-named
file already bears its decoded payload's name — the state a fully
successful first run leaves behind — performs no renames at all (every
outcome is skipped-already-correct) and returns the directory unchanged.
A second run can still rename a file the first run conflict-skipped, when
the first run renamed the conflicting target away. -/
theorem second_run_already_correct :
    (∀ (envOf : Nat → FileEnv) (fs : List PFile) (n s : String),
      (extract_qr_code_from_pdf (envFor envOf fs n)).result = some s →
      s ≠ "" → s ++ ".pdf" = n →
      processFile envOf fs n = .step fs (.skippedAlreadyCorrect n)) ∧
    (∀ (envOf : Nat → FileEnv) (fs : List PFile),
      (∀ f ∈ fs, pyEndsWith (pyLower f.name) ".pdf" = true →
        selfNamed envOf f) →
      (rename_pdfs_in_folder envOf fs).fs = fs ∧
      (rename_pdfs_in_folder envOf fs).aborted = false ∧
      (rename_pdfs_in_folder envOf fs).outcomes =
        ((fs.map PFile.name).filter (fun n => pyEndsWith (pyLower n) ".pdf")).map
          Outcome.skippedAlreadyCorrect) := by
  constructor
  · exact processFile_alreadyCorrect
  · intro envOf fs h
    have hrun := runNames_selfNamed envOf fs h (fs.map PFile.name)
      (fun n hn => hn)
    unfold rename_pdfs_in_folder
    rw [hrun]
    exact ⟨rfl, rfl, rfl⟩

/-- Witness for the amended idempotence theorem: a single correctly named
file `X.pdf` whose payload is "X". -/
theorem second_run_already_correct_witness :
    processFile (fun _ => payloadEnv "X") [⟨"X.pdf", 1⟩] "X.pdf" =
      .step [⟨"X.pdf", 1⟩] (.skippedAlreadyCorrect "X.pdf") ∧
    (rename_pdfs_in_folder (fun _ => payloadEnv "X") [⟨"X.pdf", 1⟩]).fs =
      [⟨"X.pdf", 1⟩] ∧
    (rename_pdfs_in_folder (fun _ => payloadEnv "X") [⟨"X.pdf", 1⟩]).aborted =
      false ∧
    (rename_pdfs_in_folder (fun _ => payloadEnv "X") [⟨"X.pdf", 1⟩]).outcomes =
      ((([⟨"X.pdf", 1⟩] : List PFile).map PFile.name).filter
        (fun n => pyEndsWith (pyLower n) ".pdf")).map
          Outcome.skippedAlreadyCorrect := by
  refine ⟨second_run_already_correct.1 (fun _ => payloadEnv "X")
    [⟨"X.pdf", 1⟩] "X.pdf" "X" (by decide) (by decide) (by decide), ?_⟩
  refine second_run_already_correct.2 (fun _ => payloadEnv "X") [⟨"X.pdf", 1⟩] ?_
  intro f hf _
  have hfeq : f = ⟨"X.pdf", 1⟩ := by simpa using hf
  subst hfeq
  exact ⟨"X", by decide, by decide, by decide⟩

end QrTool
